import Mathlib

/-!
Shallow embedding of the ovConnectSample repository:
the two asset-validator rule checkers
(`omni/asset_validator/core/usdGeomSubset.py`,
`omni/asset_validator/core/usdMaterialBindingApi.py`),
the `pyHelloWorld/helloWorld.py` sample script, and the
`tests/test_all.py` harness, together with theorems settling the
frozen claims about them.

External SDK calls (pxr / omni.client) are modelled by passing their
observable results as explicit arguments; `sys.exit` is modelled by
`Except String`; mutation of module globals and of the checkpoint
message is modelled by explicit state passing.
-/

/-- Boolean string-prefix test, the semantics of Python `str.startswith`. -/
def strStartsWith (s pre : String) : Bool :=
  pre.toList.isPrefixOf s.toList

/-- Boolean substring test, the semantics of Python `needle in haystack`. -/
def strContains (haystack needle : String) : Bool :=
  haystack.toList.tails.any (fun t => needle.toList.isPrefixOf t)

/-! ## USD data model

A prim is modelled by the observations the repository code makes of it:
its name, whether `prim.IsA(UsdGeom.Subset)` holds, whether
`prim.IsA(UsdGeom.Mesh)` holds, whether
`prim.HasAPI(UsdShade.MaterialBindingAPI)` holds, and its property list
(`prim.GetProperties()`), each property carrying a name and an optional
token value (`attr.Get()` returns `None` when the attribute has no value).
-/

structure UsdProperty where
  name : String
  value : Option String
deriving DecidableEq, Repr

structure UsdPrim where
  name : String
  isGeomSubset : Bool
  isMesh : Bool
  hasMaterialBindingAPI : Bool
  properties : List UsdProperty
deriving DecidableEq, Repr

/-- The token `UsdShade.Tokens.materialBind`. -/
def materialBind : String := "materialBind"

/-- `UsdGeom.Subset(prim).GetFamilyNameAttr().Get()`: the value of the
property named exactly `familyName`, when present. -/
def getFamilyNameAttrValue (prim : UsdPrim) : Option String :=
  (prim.properties.find? (fun p => p.name == "familyName")).bind (fun p => p.value)

/-- `CreateFamilyNameAttr().Set(v)` / property writes in general: update the
value of every property with the given name, or append the property when no
property of that name exists. -/
def setPropList (l : List UsdProperty) (n v : String) : List UsdProperty :=
  if l.any (fun p => p.name == n) then
    l.map (fun p => if p.name == n then { p with value := some v } else p)
  else
    l ++ [⟨n, some v⟩]

def setProperty (prim : UsdPrim) (n v : String) : UsdPrim :=
  { prim with properties := setPropList prim.properties n v }

/-- Which one-line fix a failed check suggests. -/
inductive FixId
  | familyNameFix
  | materialBindingApiFix
deriving DecidableEq, Repr

/-- A record produced by `self._AddFailedCheck(message, at=prim, suggestion=...)`:
the prim it points at and the suggested fix (the message text is a fixed
f-string over the prim name and carries no further information). -/
structure FailedCheck where
  failedAt : String
  suggestion : FixId
deriving DecidableEq, Repr

namespace UsdGeomSubsetChecker

/-- `UsdGeomSubsetChecker.apply_family_name_fix` (usdGeomSubset.py lines 24-26):
`UsdGeom.Subset(prim).CreateFamilyNameAttr().Set(UsdShade.Tokens.materialBind)`. -/
def apply_family_name_fix (prim : UsdPrim) : UsdPrim :=
  setProperty prim "familyName" materialBind

/-- `UsdGeomSubsetChecker.CheckPrim` (usdGeomSubset.py lines 28-50).
The Python `for prop in prim.GetProperties()` loop accumulates the two
booleans with `or` over every property, hence the `foldl`. -/
def CheckPrim (prim : UsdPrim) : List FailedCheck :=
  if !prim.isGeomSubset then []
  else
    let hasMaterialBindingRel :=
      prim.properties.foldl (fun acc p => acc || strStartsWith p.name "material:binding") false
    let hasFamilyName :=
      prim.properties.foldl (fun acc p => acc || strStartsWith p.name "familyName") false
    if hasMaterialBindingRel &&
        (!hasFamilyName || getFamilyNameAttrValue prim != some materialBind) then
      [{ failedAt := prim.name, suggestion := FixId.familyNameFix }]
    else []

end UsdGeomSubsetChecker

namespace UsdMaterialBindingApi

/-- `UsdMaterialBindingApi.apply_material_binding_api_fix`
(usdMaterialBindingApi.py lines 24-25): `UsdShade.MaterialBindingAPI.Apply(prim)`. -/
def apply_material_binding_api_fix (prim : UsdPrim) : UsdPrim :=
  { prim with hasMaterialBindingAPI := true }

/-- `UsdMaterialBindingApi.CheckPrim` (usdMaterialBindingApi.py lines 27-40):
early return when the API is already applied, then `any(...)` over the
properties. -/
def CheckPrim (prim : UsdPrim) : List FailedCheck :=
  if prim.hasMaterialBindingAPI then []
  else
    let hasMaterialBindingRel :=
      prim.properties.any (fun p => strStartsWith p.name "material:binding")
    if hasMaterialBindingRel && !prim.hasMaterialBindingAPI then
      [{ failedAt := prim.name, suggestion := FixId.materialBindingApiFix }]
    else []

end UsdMaterialBindingApi

/-- A `UsdGeom.Subset` prim with a material binding and a `familyName`
attribute whose value is not `materialBind`. -/
def subsetWrongFamilyPrim : UsdPrim :=
  { name := "subset0"
    isGeomSubset := true
    isMesh := false
    hasMaterialBindingAPI := false
    properties := [⟨"material:binding", none⟩, ⟨"familyName", some "wrongFamily"⟩] }

/-! ## helloWorld.py: live edit loop

`run_live_edit` (helloWorld.py lines 622-693) reads one character per
iteration and dispatches on it.  A character is modelled by its byte value
(116 = t, 109 = m, 108 = l, 113 = q, 27 = ESC).  The mutable loop state is
the `angle` variable and whether the message channel is still joined
(`join_request`).  Each iteration is tagged with the branch it took:
`transform` covers the transform-and-`save_stage` branch, `message` the
channel-message branch, `leave` the leave-channel branch, `quit` the
`break`, `help` the final `else` that reprints the prompt. -/

structure LiveState where
  angle : Nat
  joined : Bool
deriving DecidableEq, Repr

inductive LiveCmd
  | transform
  | message
  | leave
  | quit
  | help
deriving DecidableEq, Repr

/-- One iteration body of the `while True` loop: the successive
`if option == ...` tests in source order; the third component is whether the
iteration executed `break`. -/
def liveDispatch (s : LiveState) (c : Nat) : LiveState × LiveCmd × Bool :=
  if c == 116 then ({ s with angle := (s.angle + 15) % 360 }, LiveCmd.transform, false)
  else if c == 109 then (s, LiveCmd.message, false)
  else if c == 108 then ({ s with joined := false }, LiveCmd.leave, false)
  else if c == 113 || c == 27 then (s, LiveCmd.quit, true)
  else (s, LiveCmd.help, false)

/-- The loop run on a finite stream of input characters; the Bool records
whether the loop exited via `break` (rather than exhausting the stream). -/
def runLive (s : LiveState) : List Nat → LiveState × Bool
  | [] => (s, false)
  | c :: cs =>
    let r := liveDispatch s c
    if r.2.2 then (r.1, true) else runLive r.1 cs

/-- `run_live_edit` initialises `angle = 0` before entering the loop. -/
def runLiveFromStart (joined : Bool) (inputs : List Nat) : LiveState × Bool :=
  runLive { angle := 0, joined := joined } inputs

/-! ## helloWorld.py: exit-on-failure behaviour

Each function is modelled on the observable result of the SDK call it
makes; `Except.error msg` models `sys.exit(...)`. -/

/-- `omni.client.ConnectionStatus` values distinguished by the script. -/
inductive ConnectionStatus
  | connecting
  | connected
  | connectError
  | disconnected
deriving DecidableEq, BEq, Repr

/-- `omni.client.Result` of `create_folder`: the script only reads `.name`. -/
inductive ClientResult
  | resultOk
  | errorNotFound
  | errorAlreadyExists
  | errorAccessDenied
deriving DecidableEq, Repr

/-- `connectionStatusCallback` (helloWorld.py lines 62-64): exit on
`CONNECT_ERROR`, return otherwise. -/
def connectionStatusCallback (status : ConnectionStatus) : Except String Unit :=
  if status == ConnectionStatus.connectError then
    Except.error "[ERROR] Failed connection, exiting."
  else Except.ok ()

/-- `startOmniverse` (helloWorld.py lines 67-75), exit path: exit when
`omni.client.initialize()` returns a falsy value. -/
def startOmniverse (init_ok : Bool) : Except String Unit :=
  if !init_ok then Except.error "[ERROR] Unable to initialize Omniverse client, exiting."
  else Except.ok ()

/-- `enablePhysics` (helloWorld.py lines 146-164): exit when
`UsdPhysics.CollisionAPI.Apply(prim)` returns a falsy value; on success the
mesh approximation token written for mesh prims is returned. -/
def enablePhysics (collision_api_ok : Bool) (prim_isMesh dynamic : Bool) :
    Except String (Option String) :=
  if !collision_api_ok then
    Except.error "Failed to apply UsdPhysics.CollisionAPI, check that the UsdPhysics plugin is located in the USD plugins folders"
  else
    Except.ok (if prim_isMesh then some (if dynamic then "convexHull" else "none") else none)

/-- `findGeomMesh` (helloWorld.py lines 326-341): exit when the stage does
not open; otherwise return the first mesh prim in traversal order, exiting
when there is none. -/
def findGeomMesh (stage_opens : Bool) (stage_prims : List UsdPrim) : Except String UsdPrim :=
  if !stage_opens then Except.error "[ERROR] Unable to open stage"
  else
    match stage_prims.find? (fun p => p.isMesh) with
    | some m => Except.ok m
    | none => Except.error "[ERROR] No UsdGeomMesh found in stage"

/-- `createEmptyFolder` (helloWorld.py lines 615-619): calls
`omni.client.create_folder`, logs
`"Finished (this may be an error if the folder already exists) [ result.name ]"`
for every result, and returns normally; there is no exit path. -/
def createEmptyFolder (result : ClientResult) : Except String Unit :=
  Except.ok ()

/-- True exactly when the modelled function terminated the process. -/
def isExit {α : Type} : Except String α → Bool
  | Except.error _ => true
  | Except.ok _ => false

/-! ## helloWorld.py: module globals

The module state consists of the two module-level globals declared at
helloWorld.py lines 49-50.  Subscription handles and stages are modelled as
`Nat`. -/

structure ModuleState where
  g_connection_status_subscription : Option Nat
  g_stage : Option Nat
deriving DecidableEq, Repr

/-- The module state after the `g_... = None` statements at lines 49-50. -/
def initialModuleState : ModuleState := { g_connection_status_subscription := none, g_stage := none }

/-- Python assignment to the name `g_connection_status_subscription` inside a
function body: when the body contains a `global g_connection_status_subscription`
declaration the module binding is updated, otherwise the assignment creates a
function-local binding and the module state is untouched (the second component
is the local binding, discarded when the function returns). -/
def pyAssignSubscription (declaresGlobal : Bool) (v : Option Nat)
    (globals : ModuleState) (locals : Option (Option Nat)) :
    ModuleState × Option (Option Nat) :=
  if declaresGlobal then
    ({ globals with g_connection_status_subscription := v }, locals)
  else (globals, some v)

/-- `startOmniverse` (lines 67-75) contains no `global` statement:
its body is `omni.client.set_log_callback(...)`, the `initialize` check and
`g_connection_status_subscription = omni.client.register_connection_status_callback(...)`. -/
def startOmniverse_declaresGlobal : Bool := false

/-- `shutdownOmniverse` (lines 78-83) likewise contains no `global` statement. -/
def shutdownOmniverse_declaresGlobal : Bool := false

/-- Effect of a successful `startOmniverse()` call on the module globals,
where `handle` is the subscription handle returned by
`omni.client.register_connection_status_callback`. -/
def startOmniverseGlobals (handle : Nat) (globals : ModuleState) : ModuleState :=
  (pyAssignSubscription startOmniverse_declaresGlobal (some handle) globals none).1

/-- Effect of `shutdownOmniverse()` (its `g_connection_status_subscription = None`
statement) on the module globals. -/
def shutdownOmniverseGlobals (globals : ModuleState) : ModuleState :=
  (pyAssignSubscription shutdownOmniverse_declaresGlobal none globals none).1

/-! ## helloWorld.py: save_stage and the checkpoint message

`save_stage` (helloWorld.py lines 266-278) drives the resolver and client
through a fixed sequence of calls.  The sequence is recorded as a list of
operations, and the only piece of state the operations touch that the
script itself observes is the resolver checkpoint message. -/

inductive ResolverOp
  | setCheckpointMessage (msg : String)
  | saveLayer
  | liveProcess
deriving DecidableEq, Repr

structure ResolverState where
  checkpoint_message : String
deriving DecidableEq, Repr

def applyOp : ResolverState → ResolverOp → ResolverState
  | _, ResolverOp.setCheckpointMessage m => { checkpoint_message := m }
  | s, ResolverOp.saveLayer => s
  | s, ResolverOp.liveProcess => s

/-- The calls `save_stage(stageUrl, comment)` makes, in source order:
`omni.usd_resolver.set_checkpoint_message(comment)`, the edit-target layer
`Save()`, `omni.usd_resolver.set_checkpoint_message("")`,
`omni.client.live_process()`. -/
def save_stage_ops (comment : String) : List ResolverOp :=
  [ResolverOp.setCheckpointMessage comment, ResolverOp.saveLayer,
   ResolverOp.setCheckpointMessage "", ResolverOp.liveProcess]

/-- The resolver state after `save_stage(stageUrl, comment)` returns. -/
def save_stage (comment : String) (s : ResolverState) : ResolverState :=
  (save_stage_ops comment).foldl applyOp s

/-! ## helloWorld.py: URL validation -/

/-- The result of `omni.client.break_url` as far as the script reads it. -/
structure OmniUrl where
  scheme : String
deriving DecidableEq, Repr

/-- `isValidOmniUrl` (helloWorld.py lines 86-90), parametrised by the
client library URL parser. -/
def isValidOmniUrl (break_url : String → OmniUrl) (url : String) : Bool :=
  let omniURL := break_url url
  if omniURL.scheme == "omniverse" || omniURL.scheme == "omni" then true
  else false

/-- The `__main__` URL checks (helloWorld.py lines 725-735): each of
`destination_path` and `existing_stage` that is non-empty (Python truthy)
and not a valid Omniverse URL is reported with `LOGGER.warning`; the first
component lists the paths warned about, the second records that execution
continues past both checks (the branches contain no exit). -/
def main_url_warnings (break_url : String → OmniUrl)
    (destination_path existing_stage : String) : List String × Bool :=
  let w1 := if destination_path != "" && !(isValidOmniUrl break_url destination_path) then
      [destination_path] else []
  let w2 := if existing_stage != "" && !(isValidOmniUrl break_url existing_stage) then
      [existing_stage] else []
  (w1 ++ w2, true)

/-! ## tests/test_all.py -/

/-- A completed subprocess as `run_shell_script` reports it: the return code
and the captured stdout+stderr text. -/
structure ShellResult where
  returncode : Int
  output : String
deriving DecidableEq, Repr

/-- `g_default_base_url` (test_all.py line 15). -/
def g_default_base_url : String := "omniverse://localhost/Projects/samplesTest"

/-- Outcome of running a test-harness function: either it returned, or an
`assert` in it failed. -/
inductive AssertResult
  | passed
  | assertionError
deriving DecidableEq, Repr

/-- `clean_base_url` (test_all.py lines 46-52), parametrised by the
environment lookup of `OMNI_BASE_URL` and by the shell-script runner:
it runs `omnicli delete <base_url>`, returns early when the output contains
`"Error: Not Found"`, and otherwise asserts that the return code is 0. -/
def clean_base_url (env_base_url : Option String)
    (run_shell_script : String → List String → ShellResult) : AssertResult :=
  let base_url := env_base_url.getD g_default_base_url
  let result := run_shell_script "omnicli" ["delete", base_url]
  if strContains result.output "Error: Not Found" then AssertResult.passed
  else if result.returncode = 0 then AssertResult.passed
  else AssertResult.assertionError

/-! ## Helper lemmas -/

theorem foldl_or_eq_any {α : Type} (f : α → Bool) (l : List α) (b : Bool) :
    l.foldl (fun acc p => acc || f p) b = (b || l.any f) := by
  induction l generalizing b with
  | nil => simp
  | cons a t ih => simp [List.foldl_cons, List.any_cons, ih, Bool.or_assoc]

theorem charList_isPrefixOf_self (l : List Char) : l.isPrefixOf l = true := by
  induction l with
  | nil => rfl
  | cons a t ih => simp [List.isPrefixOf, ih]

theorem strStartsWith_self (s : String) : strStartsWith s s = true :=
  charList_isPrefixOf_self s.toList

theorem find_map_update (n v : String) (l : List UsdProperty)
    (h : l.any (fun p => p.name == n) = true) :
    (((l.map (fun p => if p.name == n then { p with value := some v } else p)).find?
      (fun p => p.name == n)).bind (fun p => p.value)) = some v := by
  induction l with
  | nil => simp at h
  | cons a t ih =>
    by_cases ha : (a.name == n) = true
    · rw [List.map_cons, if_pos ha, List.find?_cons_of_pos _ (by simpa using ha)]
      rfl
    · have ha' : (a.name == n) = false := by simpa using ha
      have ht : t.any (fun p => p.name == n) = true := by
        have h2 := h
        rw [List.any_cons, ha', Bool.false_or] at h2
        exact h2
      rw [List.map_cons, if_neg (by simp [ha']),
        List.find?_cons_of_neg _ (by simp [ha'])]
      exact ih ht

theorem find_append_new (n v : String) (l : List UsdProperty)
    (h : l.any (fun p => p.name == n) = false) :
    ((((l ++ [({ name := n, value := some v } : UsdProperty)]).find?
      (fun p => p.name == n)).bind (fun p => p.value))) = some v := by
  induction l with
  | nil => simp [List.find?]
  | cons a t ih =>
    have h2 := h
    rw [List.any_cons, Bool.or_eq_false_iff] at h2
    obtain ⟨ha, ht⟩ := h2
    rw [List.cons_append, List.find?_cons_of_neg _ (by simp [ha])]
    exact ih ht

theorem findValue_setPropList (l : List UsdProperty) (n v : String) :
    (((setPropList l n v).find? (fun p => p.name == n)).bind (fun p => p.value)) = some v := by
  unfold setPropList
  by_cases h : l.any (fun p => p.name == n) = true
  · simpa [h] using find_map_update n v l h
  · have h' : l.any (fun p => p.name == n) = false := by simpa using h
    simpa [h'] using find_append_new n v l h'

theorem exists_mem_setPropList (l : List UsdProperty) (n v : String) :
    ∃ p ∈ setPropList l n v, p.name = n := by
  unfold setPropList
  by_cases h : l.any (fun p => p.name == n) = true
  · obtain ⟨p, hmem, hp⟩ := List.any_eq_true.mp h
    have hname : p.name = n := by simpa using hp
    refine ⟨{ p with value := some v }, ?_, hname⟩
    simp only [h, if_pos]
    have heq : ({ name := p.name, value := some v } : UsdProperty) =
        (fun q => if q.name == n then { q with value := some v } else q) p := by
      simp only [hp, if_pos]
    rw [heq]
    exact List.mem_map_of_mem _ hmem
  · have h' : l.any (fun p => p.name == n) = false := by simpa using h
    refine ⟨{ name := n, value := some v }, ?_, rfl⟩
    simp [h']

theorem ite_singleton_ne_nil {α : Type} (c : Bool) (x : α) :
    (if c then [x] else []) ≠ [] ↔ c = true := by
  cases c <;> simp

theorem geomSubset_check_ne_nil_iff (prim : UsdPrim) :
    UsdGeomSubsetChecker.CheckPrim prim ≠ [] ↔
      (prim.isGeomSubset = true ∧
       prim.properties.any (fun p => strStartsWith p.name "material:binding") = true ∧
       (prim.properties.any (fun p => strStartsWith p.name "familyName") = false ∨
        getFamilyNameAttrValue prim ≠ some materialBind)) := by
  unfold UsdGeomSubsetChecker.CheckPrim
  cases hg : prim.isGeomSubset
  · simp
  · simp only [Bool.not_true, Bool.false_eq_true, if_false, foldl_or_eq_any, Bool.false_or]
    rw [ite_singleton_ne_nil]
    simp [Bool.and_eq_true, Bool.or_eq_true, Bool.not_eq_true', bne_iff_ne]

/-- C1: for a `UsdGeom.Subset` prim with a `material:binding` property,
`UsdGeomSubsetChecker.CheckPrim` records at most one failed check, and it
records one exactly when the prim has no property whose name begins with
`familyName` or the `familyName` attribute value is not
`UsdShade.Tokens.materialBind` (so not only when the attribute is missing). -/
theorem geomSubsetChecker_CheckPrim_characterization (prim : UsdPrim) :
    (UsdGeomSubsetChecker.CheckPrim prim).length ≤ 1 ∧
    (UsdGeomSubsetChecker.CheckPrim prim ≠ [] ↔
      (prim.isGeomSubset = true ∧
       prim.properties.any (fun p => strStartsWith p.name "material:binding") = true ∧
       (prim.properties.any (fun p => strStartsWith p.name "familyName") = false ∨
        getFamilyNameAttrValue prim ≠ some materialBind))) := by
  refine ⟨?_, geomSubset_check_ne_nil_iff prim⟩
  unfold UsdGeomSubsetChecker.CheckPrim
  split
  · simp
  · dsimp only
    split <;> simp

/-- C1 counterexample: a `UsdGeom.Subset` prim with a `material:binding`
property and a present `familyName` attribute (value `wrongFamily`) is still
reported as failing, refuting that a failure is recorded exactly when the
`familyName` attribute is missing. -/
theorem geomSubsetChecker_flags_present_familyName :
    UsdGeomSubsetChecker.CheckPrim subsetWrongFamilyPrim ≠ [] ∧
    subsetWrongFamilyPrim.properties.any (fun p => p.name == "familyName") = true ∧
    getFamilyNameAttrValue subsetWrongFamilyPrim = some "wrongFamily" := by
  decide

/-- C2: `UsdMaterialBindingApi.CheckPrim` records a failed check exactly when
the prim lacks the `MaterialBindingAPI` applied schema and some property name
begins with `material:binding`; a prim with the API applied yields no failure
whatever its properties are (the early return never inspects them). -/
theorem materialBindingApi_CheckPrim_iff (prim : UsdPrim) :
    (UsdMaterialBindingApi.CheckPrim prim ≠ [] ↔
      (prim.hasMaterialBindingAPI = false ∧
       prim.properties.any (fun p => strStartsWith p.name "material:binding") = true)) ∧
    (∀ props : List UsdProperty,
      UsdMaterialBindingApi.CheckPrim
        { prim with hasMaterialBindingAPI := true, properties := props } = []) := by
  constructor
  · unfold UsdMaterialBindingApi.CheckPrim
    cases hb : prim.hasMaterialBindingAPI
    · simp only [Bool.false_eq_true, if_false, Bool.not_false, Bool.and_true]
      rw [ite_singleton_ne_nil]
      simp
    · simp
  · intro props
    unfold UsdMaterialBindingApi.CheckPrim
    simp

/-- C3: each suggested fix establishes the checked condition, so checking
after fixing records no failure: `apply_family_name_fix` sets the prim's
`familyName` attribute to `materialBind`, after which
`UsdGeomSubsetChecker.CheckPrim` returns no failure, and
`apply_material_binding_api_fix` applies the `MaterialBindingAPI`, after
which `UsdMaterialBindingApi.CheckPrim` returns no failure. -/
theorem validator_fixes_establish_checked_condition (prim : UsdPrim) :
    getFamilyNameAttrValue (UsdGeomSubsetChecker.apply_family_name_fix prim) =
      some materialBind ∧
    UsdGeomSubsetChecker.CheckPrim (UsdGeomSubsetChecker.apply_family_name_fix prim) = [] ∧
    (UsdMaterialBindingApi.apply_material_binding_api_fix prim).hasMaterialBindingAPI = true ∧
    UsdMaterialBindingApi.CheckPrim
      (UsdMaterialBindingApi.apply_material_binding_api_fix prim) = [] := by
  have hval : getFamilyNameAttrValue (UsdGeomSubsetChecker.apply_family_name_fix prim) =
      some materialBind := by
    unfold UsdGeomSubsetChecker.apply_family_name_fix setProperty getFamilyNameAttrValue
    exact findValue_setPropList prim.properties "familyName" materialBind
  refine ⟨hval, ?_, rfl, ?_⟩
  · by_contra hne
    obtain ⟨-, -, hbad⟩ := (geomSubset_check_ne_nil_iff _).mp hne
    rcases hbad with hfam | hv
    · obtain ⟨p, hmem, hname⟩ :=
        exists_mem_setPropList prim.properties "familyName" materialBind
      have hany : (UsdGeomSubsetChecker.apply_family_name_fix prim).properties.any
          (fun p => strStartsWith p.name "familyName") = true := by
        apply List.any_eq_true.mpr
        exact ⟨p, hmem, by rw [hname]; exact strStartsWith_self _⟩
      rw [hany] at hfam
      exact absurd hfam (by simp)
    · exact hv hval
  · unfold UsdMaterialBindingApi.CheckPrim UsdMaterialBindingApi.apply_material_binding_api_fix
    simp

theorem liveDispatch_exit (s : LiveState) (c : Nat) :
    (liveDispatch s c).2.2 = (c == 113 || c == 27) := by
  unfold liveDispatch
  split_ifs with h1 h2 h3 h4 <;> simp_all

theorem liveDispatch_angle (s : LiveState) (c : Nat) :
    (liveDispatch s c).1.angle = if c == 116 then (s.angle + 15) % 360 else s.angle := by
  unfold liveDispatch
  split_ifs with h1 h2 h3 h4 <;> simp_all

theorem runLive_exit_eq_any (inputs : List Nat) :
    ∀ s : LiveState, (runLive s inputs).2 = inputs.any (fun c => c == 113 || c == 27) := by
  induction inputs with
  | nil => intro s; simp [runLive]
  | cons c cs ih =>
    intro s
    have hstep : runLive s (c :: cs) =
        if (liveDispatch s c).2.2 then ((liveDispatch s c).1, true)
        else runLive (liveDispatch s c).1 cs := rfl
    rw [hstep, liveDispatch_exit, List.any_cons]
    cases hb : ((c == 113 || c == 27) : Bool)
    · simpa using ih (liveDispatch s c).1
    · simp

/-- C4: the live-edit loop is a read-character dispatch in which 116 = t
transforms (updating the angle and saving), 109 = m takes the
channel-message branch, 108 = l leaves the channel, 113 = q breaks out of
the loop, 27 = ESC also breaks out of the loop, and every other character
takes the help branch; the loop exits exactly when some input character is
q or ESC. -/
theorem run_live_edit_dispatch :
    (∀ s : LiveState, liveDispatch s 116 =
        ({ s with angle := (s.angle + 15) % 360 }, LiveCmd.transform, false)) ∧
    (∀ s : LiveState, liveDispatch s 109 = (s, LiveCmd.message, false)) ∧
    (∀ s : LiveState, liveDispatch s 108 = ({ s with joined := false }, LiveCmd.leave, false)) ∧
    (∀ s : LiveState, liveDispatch s 113 = (s, LiveCmd.quit, true)) ∧
    (∀ s : LiveState, liveDispatch s 27 = (s, LiveCmd.quit, true)) ∧
    (∀ (s : LiveState) (c : Nat), (liveDispatch s c).2.1 = LiveCmd.help ↔
      (c ≠ 116 ∧ c ≠ 109 ∧ c ≠ 108 ∧ c ≠ 113 ∧ c ≠ 27)) ∧
    (∀ (s : LiveState) (inputs : List Nat),
      (runLive s inputs).2 = true ↔ ∃ c ∈ inputs, c = 113 ∨ c = 27) := by
  refine ⟨fun s => rfl, fun s => rfl, fun s => rfl, fun s => rfl, fun s => rfl, ?_, ?_⟩
  · intro s c
    unfold liveDispatch
    split_ifs with h1 h2 h3 h4
    · simp_all
    · simp_all
    · simp_all
    · rw [Bool.or_eq_true] at h4
      rcases h4 with h | h <;> simp_all
    · rw [Bool.or_eq_true] at h4
      push_neg at h4
      simp_all
  · intro s inputs
    rw [runLive_exit_eq_any inputs s, List.any_eq_true]
    simp

/-- C4 counterexample: reading the escape character (byte 27) exits the
loop even though it is not the quit command 113 = q, and its iteration is
the break branch, not the help branch. -/
theorem run_live_edit_esc_exits :
    (runLiveFromStart true [27]).2 = true ∧ ¬ (113 ∈ [27]) ∧
    (liveDispatch { angle := 0, joined := true } 27).2.1 = LiveCmd.quit := by
  decide

theorem runLive_angle_inv (inputs : List Nat) :
    ∀ s : LiveState, s.angle % 15 = 0 → s.angle < 360 →
      (runLive s inputs).1.angle % 15 = 0 ∧ (runLive s inputs).1.angle < 360 := by
  induction inputs with
  | nil => intro s h1 h2; exact ⟨h1, h2⟩
  | cons c cs ih =>
    intro s h1 h2
    have hd1 : (liveDispatch s c).1.angle % 15 = 0 := by
      rw [liveDispatch_angle]
      split_ifs with h
      · rw [Nat.mod_mod_of_dvd _ (by norm_num : (15 : ℕ) ∣ 360), Nat.add_mod_right]
        exact h1
      · exact h1
    have hd2 : (liveDispatch s c).1.angle < 360 := by
      rw [liveDispatch_angle]
      split_ifs with h
      · exact Nat.mod_lt _ (by norm_num)
      · exact h2
    simp only [runLive]
    cases hb : (liveDispatch s c).2.2
    · simp only [hb, Bool.false_eq_true, if_false]
      exact ih _ hd1 hd2
    · simp only [hb, if_true]
      exact ⟨hd1, hd2⟩

/-- C10: starting from `angle = 0`, after any sequence of loop iterations
the angle is a multiple of 15 lying in `[0, 360)`; the only update is
`angle := (angle + 15) % 360` on the t command. -/
theorem run_live_edit_angle_invariant (joined : Bool) (inputs : List Nat) :
    (runLiveFromStart joined inputs).1.angle % 15 = 0 ∧
    (runLiveFromStart joined inputs).1.angle < 360 :=
  runLive_angle_inv inputs { angle := 0, joined := joined } rfl (by norm_num)

/-- C5 (amended part): the exit-on-failure behaviour of the helloWorld
script: a failing `omni.client.initialize` in `startOmniverse`, a
`CONNECT_ERROR` status in `connectionStatusCallback`, a failing
`CollisionAPI` application in `enablePhysics`, and a failing stage open or
mesh search in `findGeomMesh` each terminate the process, while
`createEmptyFolder` never terminates the process, whatever result
`omni.client.create_folder` reports. -/
theorem helloWorld_exit_on_failure :
    isExit (startOmniverse false) = true ∧
    isExit (startOmniverse true) = false ∧
    (∀ st : ConnectionStatus,
      isExit (connectionStatusCallback st) = (st == ConnectionStatus.connectError)) ∧
    (∀ m d : Bool, isExit (enablePhysics false m d) = true) ∧
    (∀ m d : Bool, isExit (enablePhysics true m d) = false) ∧
    (∀ prims : List UsdPrim, isExit (findGeomMesh false prims) = true) ∧
    (∀ prims : List UsdPrim,
      isExit (findGeomMesh true prims) = (prims.find? (fun p => p.isMesh)).isNone) ∧
    (∀ r : ClientResult, isExit (createEmptyFolder r) = false) := by
  refine ⟨rfl, rfl, ?_, fun m d => rfl, fun m d => rfl, fun prims => rfl, ?_, fun r => rfl⟩
  · intro st
    cases st <;> rfl
  · intro prims
    unfold findGeomMesh
    cases h : prims.find? (fun p => p.isMesh) <;> simp [h, isExit]

/-- C5 counterexample: `createEmptyFolder` returns normally even when
`omni.client.create_folder` reports an error result, so a failing folder
creation does not terminate the process. -/
theorem createEmptyFolder_failure_does_not_exit :
    createEmptyFolder ClientResult.errorAccessDenied = Except.ok () ∧
    isExit (createEmptyFolder ClientResult.errorAccessDenied) = false :=
  ⟨rfl, rfl⟩

/-- C6: the assignments to `g_connection_status_subscription` in
`startOmniverse` and `shutdownOmniverse` carry no `global` declaration, so
under Python scoping they bind function-locals and the module-level global
is never changed: after `startOmniverse` runs it is still `None` rather
than the subscription handle returned by
`register_connection_status_callback`. -/
theorem g_connection_status_subscription_never_set :
    (∀ (handle : Nat) (g : ModuleState), startOmniverseGlobals handle g = g) ∧
    (∀ g : ModuleState, shutdownOmniverseGlobals g = g) ∧
    (startOmniverseGlobals 5 initialModuleState).g_connection_status_subscription = none := by
  refine ⟨fun handle g => rfl, fun g => rfl, rfl⟩

/-- C7: `clean_base_url` runs `omnicli delete <base_url>` with the base URL
taken from the `OMNI_BASE_URL` environment variable or its default, returns
without asserting when the captured output contains `"Error: Not Found"`,
and otherwise asserts that the subprocess return code is 0. -/
theorem clean_base_url_spec (env_base_url : Option String)
    (run_shell_script : String → List String → ShellResult) :
    clean_base_url env_base_url run_shell_script = AssertResult.passed ↔
      (strContains
          (run_shell_script "omnicli" ["delete", env_base_url.getD g_default_base_url]).output
          "Error: Not Found" = true ∨
       (run_shell_script "omnicli" ["delete", env_base_url.getD g_default_base_url]).returncode
          = 0) := by
  unfold clean_base_url
  dsimp only
  split_ifs with h1 h2 <;> simp_all

/-- C8: `isValidOmniUrl` returns true exactly when `omni.client.break_url`
yields scheme `omniverse` or scheme `omni`; for any other scheme the
`__main__` checks only emit a warning and execution continues, with a
warning emitted exactly for each non-empty path that is not a valid
Omniverse URL. -/
theorem isValidOmniUrl_scheme_iff (break_url : String → OmniUrl) :
    (∀ url : String, isValidOmniUrl break_url url = true ↔
      ((break_url url).scheme = "omniverse" ∨ (break_url url).scheme = "omni")) ∧
    (∀ dp es : String, (main_url_warnings break_url dp es).2 = true) ∧
    (∀ dp es : String, (main_url_warnings break_url dp es).1 = [] ↔
      ((dp = "" ∨ isValidOmniUrl break_url dp = true) ∧
       (es = "" ∨ isValidOmniUrl break_url es = true))) := by
  refine ⟨?_, fun dp es => rfl, ?_⟩
  · intro url
    unfold isValidOmniUrl
    dsimp only
    split_ifs with h <;> simp_all
  · intro dp es
    unfold main_url_warnings
    dsimp only
    split_ifs with h1 h2 <;> (simp_all [bne_iff_ne]; try tauto)

/-- C9: `save_stage` sets the resolver checkpoint message to the comment,
saves the edit-target layer while the message equals the comment, resets
the message to the empty string, and only then calls `live_process`; the
checkpoint message is empty once `save_stage` returns, for every comment
and every prior resolver state. -/
theorem save_stage_checkpoint_reset (comment : String) (s : ResolverState) :
    (save_stage comment s).checkpoint_message = "" ∧
    save_stage_ops comment =
      [ResolverOp.setCheckpointMessage comment, ResolverOp.saveLayer,
       ResolverOp.setCheckpointMessage "", ResolverOp.liveProcess] ∧
    (∃ pre post, save_stage_ops comment = pre ++ ResolverOp.saveLayer :: post ∧
      (pre.foldl applyOp s).checkpoint_message = comment) ∧
    (∃ pre, save_stage_ops comment = pre ++ [ResolverOp.liveProcess] ∧
      (pre.foldl applyOp s).checkpoint_message = "") :=
  ⟨rfl, rfl,
    ⟨[ResolverOp.setCheckpointMessage comment],
     [ResolverOp.setCheckpointMessage "", ResolverOp.liveProcess], rfl, rfl⟩,
    ⟨[ResolverOp.setCheckpointMessage comment, ResolverOp.saveLayer,
      ResolverOp.setCheckpointMessage ""], rfl, rfl⟩⟩
